import Mathlib

/-!
Verification of the Spotify tool layer (`src/tools/spotify/src/mcp.ts` and the
module it re-exports).  The TypeScript source is shallowly embedded: JSON
values become an inductive `Json`, JavaScript coercions (`String(..)`,
`Number(..)`, truthiness, `??`, `||`, optional chaining) become explicit Lean
functions, zod schema parsing becomes `Except`-returning parsers, and the two
effects — reading the process environment and performing `fetch` — are passed
in as functions (`env : String → Option String`,
`net : SpotifyRequest → SpotifyResponse`) while each run function returns the
ordered trace of HTTP requests it issued alongside its result.

Modelling notes on platform (not repository) behaviour:
* JSON numbers are modelled as integers; every numeric field the API serves
  (`duration_ms`, `popularity`, `total`, `limit`, `offset`, `followers.total`)
  is integral.  `Number(..)` applied to a non-numeric string yields `nan`.
* JavaScript property access on `null`/`undefined` throws; the model's `jGet`
  returns `none` there, and theorems that quantify over raw payloads restrict
  the receiver to JSON objects, the domain on which the two agree.
* `String.prototype.slice`/`length` count UTF-16 units while Lean counts
  characters; they agree outside astral code points.
-/

/-- JSON values as delivered by `response.json()`.  A field that is absent is
represented by `jGet` returning `none` (JavaScript `undefined`), distinct from
`Json.null`. -/
inductive Json where
  | null : Json
  | bool : Bool → Json
  | num : Int → Json
  | str : String → Json
  | arr : List Json → Json
  | obj : List (String × Json) → Json

/-- Field lookup in a JSON object; later duplicates win, matching
`JSON.parse`.  On a non-object receiver the result is `none`, matching
optional-chained access (`x?.k`). -/
def lookupField : List (String × Json) → String → Option Json
  | [], _ => none
  | (k, v) :: rest, key =>
    match lookupField rest key with
    | some v2 => some v2
    | none => if k = key then some v else none

/-- Property access `x.k` / `x?.k`: `some` when the field is present,
`none` for JavaScript `undefined`. -/
def jGet : Json → String → Option Json
  | Json.obj fields, key => lookupField fields key
  | _, _ => none

/-- JavaScript truthiness of a JSON value. -/
def jsTruthy : Json → Bool
  | Json.null => false
  | Json.bool b => b
  | Json.num n => n != 0
  | Json.str s => !s.isEmpty
  | Json.arr _ => true
  | Json.obj _ => true

/-- Truthiness of a possibly-absent value (`undefined` is falsy). -/
def jsTruthyOpt : Option Json → Bool
  | some j => jsTruthy j
  | none => false

/-- The nullish-coalescing operator `v ?? d`: falls through to `d` exactly on
`undefined` (`none`) and `null`. -/
def jsCoalesce : Option Json → Json → Json
  | some Json.null, d => d
  | some j, _ => j
  | none, d => d

mutual

/-- JavaScript `String(..)` on a JSON value. -/
def jsToString : Json → String
  | Json.null => "null"
  | Json.bool b => cond b "true" "false"
  | Json.num n => toString n
  | Json.str s => s
  | Json.arr xs => jsArrToString xs
  | Json.obj _ => "[object Object]"

/-- Array-to-string: elements joined by commas, as `Array.prototype.toString`. -/
def jsArrToString : List Json → String
  | [] => ""
  | [x] => jsElemToString x
  | x :: y :: rest => jsElemToString x ++ "," ++ jsArrToString (y :: rest)

/-- Array elements that are `null` contribute the empty string when joined. -/
def jsElemToString : Json → String
  | Json.null => ""
  | Json.bool b => cond b "true" "false"
  | Json.num n => toString n
  | Json.str s => s
  | Json.arr xs => jsArrToString xs
  | Json.obj _ => "[object Object]"

end

/-- The result of `Number(..)`: an integer or `NaN` (non-integer numerics are
outside the model; see the header note). -/
inductive JsNumber where
  | int : Int → JsNumber
  | nan : JsNumber
deriving DecidableEq, Repr

/-- The whitespace class of JavaScript's `String.prototype.trim`: ASCII
whitespace, NBSP and the BOM (further Unicode space separators omitted). -/
def isJsWhitespace (c : Char) : Bool :=
  c.toNat = 9 || c.toNat = 10 || c.toNat = 11 || c.toNat = 12 || c.toNat = 13
    || c.toNat = 32 || c.toNat = 160 || c.toNat = 65279

/-- JavaScript `str.slice(0, n)`: the first `n` characters. -/
def jsSlice (s : String) (n : Nat) : String :=
  String.mk (s.toList.take n)

/-- JavaScript `String.prototype.trim`. -/
def jsTrim (s : String) : String :=
  String.mk ((s.toList.dropWhile isJsWhitespace).reverse.dropWhile isJsWhitespace).reverse

/-- Digit-string to `Nat`; `none` when empty or a non-digit occurs. -/
def parseDigits (cs : List Char) : Option Nat :=
  if cs.isEmpty then none
  else if cs.all Char.isDigit then
    some (cs.foldl (fun acc c => acc * 10 + (c.toNat - 48)) 0)
  else none

/-- `Number(..)` applied to a string: trimmed, empty means 0, an optional sign
followed by digits parses, anything else is `NaN`. -/
def strToNumber (s : String) : JsNumber :=
  let t := jsTrim s
  if t.isEmpty then JsNumber.int 0
  else
    match t.toList with
    | [] => JsNumber.int 0
    | c :: rest =>
      if c = '-' then
        match parseDigits rest with
        | some n => JsNumber.int (-(n : Int))
        | none => JsNumber.nan
      else if c = '+' then
        match parseDigits rest with
        | some n => JsNumber.int (n : Int)
        | none => JsNumber.nan
      else
        match parseDigits (c :: rest) with
        | some n => JsNumber.int (n : Int)
        | none => JsNumber.nan

/-- JavaScript `Number(..)` on a JSON value. -/
def jsToNumber : Json → JsNumber
  | Json.null => JsNumber.int 0
  | Json.bool b => JsNumber.int (cond b 1 0)
  | Json.num n => JsNumber.int n
  | Json.str s => strToNumber s
  | Json.arr [] => JsNumber.int 0
  | Json.arr [x] => strToNumber (jsElemToString x)
  | Json.arr (_ :: _ :: _) => JsNumber.nan
  | Json.obj _ => JsNumber.nan

/-- The pattern `v ? String(v) : null` used for string-or-null output fields. -/
def strOrNull : Option Json → Option String
  | some j => if jsTruthy j then some (jsToString j) else none
  | none => none

/-- A zod validation issue: the path of the offending field and a message. -/
structure ZodIssue where
  path : List String
  message : String
deriving DecidableEq, Repr

/-- The issues carried by a failed `Except ZodIssue` parse (zod collects one
issue per failing field, in field order). -/
def errsOf {α : Type} : Except ZodIssue α → List ZodIssue
  | Except.error i => [i]
  | Except.ok _ => []

/-- `z.string().min(minLen).optional()`: absent means `none`; `null` and
non-strings are rejected. -/
def parseOptMinString (key : String) (minLen : Nat) : Option Json → Except ZodIssue (Option String)
  | none => Except.ok none
  | some (Json.str s) =>
    if minLen ≤ s.length then Except.ok (some s)
    else Except.error ⟨[key], "String must contain at least " ++ toString minLen ++ " character(s)"⟩
  | some _ => Except.error ⟨[key], "Expected string"⟩

/-- `z.string().max(maxLen).optional()`. -/
def parseOptMaxString (key : String) (maxLen : Nat) : Option Json → Except ZodIssue (Option String)
  | none => Except.ok none
  | some (Json.str s) =>
    if s.length ≤ maxLen then Except.ok (some s)
    else Except.error ⟨[key], "String must contain at most " ++ toString maxLen ++ " character(s)"⟩
  | some _ => Except.error ⟨[key], "Expected string"⟩

/-- `z.string().min(minLen).max(maxLen)` (required). -/
def parseBoundedString (key : String) (minLen maxLen : Nat) : Option Json → Except ZodIssue String
  | none => Except.error ⟨[key], "Required"⟩
  | some (Json.str s) =>
    if minLen ≤ s.length then
      if s.length ≤ maxLen then Except.ok s
      else Except.error ⟨[key], "String must contain at most " ++ toString maxLen ++ " character(s)"⟩
    else Except.error ⟨[key], "String must contain at least " ++ toString minLen ++ " character(s)"⟩
  | some _ => Except.error ⟨[key], "Expected string"⟩

/-- `z.boolean().default(false)`: the default fires only on `undefined`. -/
def parseBoolDefaultFalse (key : String) : Option Json → Except ZodIssue Bool
  | none => Except.ok false
  | some (Json.bool b) => Except.ok b
  | some _ => Except.error ⟨[key], "Expected boolean"⟩

/-- `z.literal(true)`: anything but the boolean `true` is rejected. -/
def parseLiteralTrue (key : String) : Option Json → Except ZodIssue Bool
  | some (Json.bool true) => Except.ok true
  | _ => Except.error ⟨[key], "Invalid literal value, expected true"⟩

/-- The parsed form of `spotifyCreatePlaylistInputSchema` (`SpotifyCreatePlaylistInput`). -/
structure SpotifyCreatePlaylistInput where
  userId : Option String
  name : String
  description : Option String
  public : Bool
  collaborative : Bool
  confirm : Bool
deriving DecidableEq, Repr

/-- `spotifyCreatePlaylistInputSchema.parse` / `.safeParse`: the zod object
schema with fields `userId`, `name`, `description`, `public`, `collaborative`,
`confirm: z.literal(true)`, followed by the `.refine` rejecting
`public && collaborative` with the issue attached to the `collaborative` path. -/
def parseCreatePlaylist (j : Json) : Except (List ZodIssue) SpotifyCreatePlaylistInput :=
  match j with
  | Json.obj _ =>
    let pUserId := parseOptMinString "userId" 1 (jGet j "userId")
    let pName := parseBoundedString "name" 1 100 (jGet j "name")
    let pDesc := parseOptMaxString "description" 300 (jGet j "description")
    let pPublic := parseBoolDefaultFalse "public" (jGet j "public")
    let pCollab := parseBoolDefaultFalse "collaborative" (jGet j "collaborative")
    let pConfirm := parseLiteralTrue "confirm" (jGet j "confirm")
    match pUserId, pName, pDesc, pPublic, pCollab, pConfirm with
    | Except.ok u, Except.ok n, Except.ok d, Except.ok pb, Except.ok cl, Except.ok cf =>
      if pb && cl then
        Except.error [⟨["collaborative"], "Spotify collaborative playlists must be non-public."⟩]
      else
        Except.ok ⟨u, n, d, pb, cl, cf⟩
    | _, _, _, _, _, _ =>
      Except.error
        (errsOf pUserId ++ errsOf pName ++ errsOf pDesc ++ errsOf pPublic
          ++ errsOf pCollab ++ errsOf pConfirm)
  | _ => Except.error [⟨[], "Expected object"⟩]

/-- The parsed form of `spotifySearchTracksInputSchema` (defaults applied). -/
structure SpotifySearchTracksInput where
  query : String
  limit : Int
  offset : Int
  market : Option String
deriving DecidableEq, Repr

/-- The parsed form of `spotifyListMyPlaylistsInputSchema` (defaults applied). -/
structure SpotifyListMyPlaylistsInput where
  limit : Int
  offset : Int
deriving DecidableEq, Repr

/-- The caller-facing partial configuration (`SpotifyToolsConfig`). -/
structure SpotifyToolsConfig where
  accessToken : Option String := none
  tokenEnvVar : Option String := none
  apiBaseUrl : Option String := none
  defaultUserId : Option String := none
deriving DecidableEq, Repr

/-- The fully-defaulted runtime configuration
(`z.output<typeof spotifyToolsConfigSchema>`). -/
structure RuntimeConfig where
  accessToken : Option String
  tokenEnvVar : String
  apiBaseUrl : String
  defaultUserId : Option String
deriving DecidableEq, Repr

/-- Models the WHATWG `new URL(..)` acceptance test behind zod's
`z.string().url()` (platform behaviour, not repository code): the string must
open with a scheme — an ASCII letter followed by letters, digits, `+`, `-` or
`.` — terminated by a colon.  Inputs without such a scheme (e.g. `"not-a-url"`)
are rejected; host-level validation of special schemes is outside the model. -/
def isWellFormedUrl (s : String) : Bool :=
  match s.toList with
  | [] => false
  | c :: rest => c.isAlpha && hasSchemeColon rest
where
  hasSchemeColon : List Char → Bool
    | [] => false
    | c :: rest =>
      if c = ':' then true
      else (c.isAlpha || c.isDigit || c = '+' || c = '-' || c = '.') && hasSchemeColon rest

/-- `spotifyToolsConfigSchema.parse`: apply the defaults
`tokenEnvVar = "SPOTIFY_ACCESS_TOKEN"` and
`apiBaseUrl = "https://api.spotify.com/v1"`, then validate that `apiBaseUrl`
is a URL. -/
def parseConfig (config : SpotifyToolsConfig) : Except ZodIssue RuntimeConfig :=
  let tokenEnvVar := config.tokenEnvVar.getD "SPOTIFY_ACCESS_TOKEN"
  let apiBaseUrl := config.apiBaseUrl.getD "https://api.spotify.com/v1"
  if isWellFormedUrl apiBaseUrl then
    Except.ok ⟨config.accessToken, tokenEnvVar, apiBaseUrl, config.defaultUserId⟩
  else
    Except.error ⟨["apiBaseUrl"], "Invalid url"⟩

/-- The structured failures raised by the tool layer (each carries the data
interpolated into the thrown `Error`'s message). -/
inductive SpotifyError where
  | validation : List ZodIssue → SpotifyError
  | missingCredential : String → SpotifyError
  | remoteApi : Nat → String → SpotifyError
  | userResolution : SpotifyError
deriving DecidableEq, Repr

/-- The message attached to each thrown `Error` in the source. -/
def spotifyErrorMessage : SpotifyError → String
  | SpotifyError.validation _ => "Validation error"
  | SpotifyError.missingCredential envVar =>
    "Missing Spotify access token. Pass accessToken in config or set " ++ envVar ++ "."
  | SpotifyError.remoteApi status detail =>
    "Spotify API request failed (" ++ toString status ++ "): " ++ detail
  | SpotifyError.userResolution =>
    "Failed to resolve authenticated Spotify user id from /me endpoint."

/-- `a || b` on JavaScript string-or-undefined values: the empty string is
falsy, so it falls through. -/
def jsOrString : Option String → Option String → Option String
  | some s, b => if s.isEmpty then b else some s
  | none, b => b

/-- `resolveAccessToken`: trim the explicit `accessToken`, trim the value of
the environment variable named by `tokenEnvVar`, take
`explicit || fromEnv || undefined`, and throw when nothing non-empty remains.
The process environment is passed in as `env`. -/
def resolveAccessToken (runtime : RuntimeConfig) (env : String → Option String) :
    Except SpotifyError String :=
  let explicit := runtime.accessToken.map jsTrim
  let fromEnv := (env runtime.tokenEnvVar).map jsTrim
  match jsOrString explicit (jsOrString fromEnv none) with
  | some token => Except.ok token
  | none => Except.error (SpotifyError.missingCredential runtime.tokenEnvVar)

/-- Hex digit (uppercase), used by percent-encoding. -/
def hexDigitChar (n : Nat) : Char :=
  if n < 10 then Char.ofNat (48 + n) else Char.ofNat (55 + n)

/-- `%XX` for one byte. -/
def percentEncodeByte (b : Nat) : String :=
  String.mk ['%', hexDigitChar (b / 16), hexDigitChar (b % 16)]

/-- UTF-8 bytes of a code point. -/
def utf8Bytes (n : Nat) : List Nat :=
  if n < 128 then [n]
  else if n < 2048 then [192 + n / 64, 128 + n % 64]
  else if n < 65536 then [224 + n / 4096, 128 + (n / 64) % 64, 128 + n % 64]
  else [240 + n / 262144, 128 + (n / 4096) % 64, 128 + (n / 64) % 64, 128 + n % 64]

/-- The characters `encodeURIComponent` leaves unescaped. -/
def uriUnreserved (c : Char) : Bool :=
  c.isAlpha || c.isDigit || c = '-' || c = '_' || c = '.' || c = '!'
    || c = '~' || c = '*' || c = Char.ofNat 39 || c = '(' || c = ')'

/-- JavaScript `encodeURIComponent`. -/
def encodeURIComponent (s : String) : String :=
  String.join (s.toList.map (fun c =>
    if uriUnreserved c then String.singleton c
    else String.join ((utf8Bytes c.toNat).map percentEncodeByte)))

/-- One character under `application/x-www-form-urlencoded` serialization
(`URLSearchParams.toString`): space becomes `+`; ASCII alphanumerics and
`*-._` pass through; everything else is percent-encoded. -/
def formEncodeChar (c : Char) : String :=
  if c = ' ' then "+"
  else if c.isAlpha || c.isDigit || c = '*' || c = '-' || c = '.' || c = '_' then
    String.singleton c
  else String.join ((utf8Bytes c.toNat).map percentEncodeByte)

/-- `URLSearchParams` value serialization. -/
def formEncode (s : String) : String :=
  String.join (s.toList.map formEncodeChar)

/-- `searchTracksParams(input).toString()`: keys in insertion order
`q`, `type`, `limit`, `offset`, then `market` (upper-cased) only when the
input's market is truthy. -/
def searchTracksParams (input : SpotifySearchTracksInput) : String :=
  let base := "q=" ++ formEncode input.query ++ "&type=track&limit="
    ++ formEncode (toString input.limit) ++ "&offset=" ++ formEncode (toString input.offset)
  match input.market with
  | some m => if m.isEmpty then base else base ++ "&market=" ++ formEncode m.toUpper
  | none => base

/-- `listPlaylistsParams(input).toString()`. -/
def listPlaylistsParams (input : SpotifyListMyPlaylistsInput) : String :=
  "limit=" ++ formEncode (toString input.limit) ++ "&offset=" ++ formEncode (toString input.offset)

/-- The outbound HTTP request handed to `fetch`.  The body is kept as the JSON
value to be serialized (`JSON.stringify` omits object properties whose value
is `undefined`, so optional absent fields are already dropped from the
object). -/
structure SpotifyRequest where
  method : String
  url : String
  headers : List (String × String)
  body : Option Json

/-- The `fetch` response: its status, its body as text, and the result of
`response.json()`. -/
structure SpotifyResponse where
  status : Nat
  text : String
  json : Json

/-- The request construction inside `requestSpotify`: URL is
`apiBaseUrl + path`; headers are `authorization: Bearer <token>`,
`accept: application/json`, and `content-type: application/json` exactly when
a body is present. -/
def buildRequest (apiBaseUrl token method path : String) (body : Option Json) : SpotifyRequest :=
  { method := method
    url := apiBaseUrl ++ path
    headers :=
      [("authorization", "Bearer " ++ token), ("accept", "application/json")]
        ++ (match body with
            | none => []
            | some _ => [("content-type", "application/json")])
    body := body }

/-- The response handling inside `requestSpotify`: `response.ok` means a 2xx
status; otherwise the thrown error carries the status and the body text
truncated by `.slice(0, 400)`. -/
def handleResponse (r : SpotifyResponse) : Except SpotifyError Json :=
  if 200 ≤ r.status ∧ r.status < 300 then Except.ok r.json
  else Except.error (SpotifyError.remoteApi r.status (jsSlice r.text 400))

/-- Output of `spotify_get_me`. -/
structure GetMeOutput where
  id : String
  displayName : Option String
  email : Option String
  country : Option String
  product : Option String
  followers : JsNumber
  uri : Option String
deriving DecidableEq, Repr

/-- The response-mapping step of `runSpotifyGetMe`. -/
def mapGetMe (payload : Json) : GetMeOutput :=
  { id := jsToString (jsCoalesce (jGet payload "id") (Json.str ""))
    displayName := strOrNull (jGet payload "display_name")
    email := strOrNull (jGet payload "email")
    country := strOrNull (jGet payload "country")
    product := strOrNull (jGet payload "product")
    followers := jsToNumber (jsCoalesce ((jGet payload "followers").bind (fun f => jGet f "total")) (Json.num 0))
    uri := strOrNull (jGet payload "uri") }

/-- One mapped track in the `spotify_search_tracks` output. -/
structure TrackOutput where
  id : String
  name : String
  artists : List String
  album : Option String
  durationMs : JsNumber
  popularity : JsNumber
  uri : String
  externalUrl : Option String
deriving DecidableEq, Repr

/-- `(artist?.name ? String(artist.name) : null)` for one artist entry. -/
def mapArtistName (artist : Json) : Option String :=
  match jGet artist "name" with
  | some nm => if jsTruthy nm then some (jsToString nm) else none
  | none => none

/-- The artists mapping:
`track.artists.map(a => a?.name ? String(a.name) : null).filter(Boolean)` when
`track.artists` is an array, `[]` otherwise.  `filter(Boolean)` drops the
`null`s and any empty string. -/
def mapArtists (v : Option Json) : List String :=
  match v with
  | some (Json.arr xs) => (xs.filterMap mapArtistName).filter (fun s => !s.isEmpty)
  | _ => []

/-- The per-track mapping in `runSpotifySearchTracks`. -/
def mapTrack (track : Json) : TrackOutput :=
  { id := jsToString (jsCoalesce (jGet track "id") (Json.str ""))
    name := jsToString (jsCoalesce (jGet track "name") (Json.str ""))
    artists := mapArtists (jGet track "artists")
    album := strOrNull ((jGet track "album").bind (fun a => jGet a "name"))
    durationMs := jsToNumber (jsCoalesce (jGet track "duration_ms") (Json.num 0))
    popularity := jsToNumber (jsCoalesce (jGet track "popularity") (Json.num 0))
    uri := jsToString (jsCoalesce (jGet track "uri") (Json.str ""))
    externalUrl := strOrNull ((jGet track "external_urls").bind (fun e => jGet e "spotify")) }

/-- Output of `spotify_search_tracks`. -/
structure SearchTracksOutput where
  total : JsNumber
  limit : JsNumber
  offset : JsNumber
  tracks : List TrackOutput
deriving DecidableEq, Repr

/-- `Array.isArray(v) ? v : []` on a possibly-absent value. -/
def jsItemsArray : Option Json → List Json
  | some (Json.arr xs) => xs
  | _ => []

/-- The response-mapping step of `runSpotifySearchTracks`: items come from
`payload.tracks?.items` when that is an array; `total` falls back to
`items.length`, `limit`/`offset` fall back to the request's values. -/
def mapSearchTracks (input : SpotifySearchTracksInput) (payload : Json) : SearchTracksOutput :=
  let tracksObj := jGet payload "tracks"
  let items := jsItemsArray (tracksObj.bind (fun t => jGet t "items"))
  { total := jsToNumber (jsCoalesce (tracksObj.bind (fun t => jGet t "total")) (Json.num items.length))
    limit := jsToNumber (jsCoalesce (tracksObj.bind (fun t => jGet t "limit")) (Json.num input.limit))
    offset := jsToNumber (jsCoalesce (tracksObj.bind (fun t => jGet t "offset")) (Json.num input.offset))
    tracks := items.map mapTrack }

/-- One mapped playlist in the `spotify_list_my_playlists` output. -/
structure PlaylistItemOutput where
  id : String
  name : String
  description : Option String
  public : Option Bool
  collaborative : Bool
  ownerId : Option String
  tracksTotal : JsNumber
  snapshotId : Option String
  externalUrl : Option String
deriving DecidableEq, Repr

/-- `x === null ? null : Boolean(x)`: only an explicit JSON `null` maps to
`null`; an absent field (`undefined`) maps to `Boolean(undefined) = false`. -/
def boolOrNull : Option Json → Option Bool
  | some Json.null => none
  | v => some (jsTruthyOpt v)

/-- The per-playlist mapping in `runSpotifyListMyPlaylists`. -/
def mapPlaylistItem (playlist : Json) : PlaylistItemOutput :=
  { id := jsToString (jsCoalesce (jGet playlist "id") (Json.str ""))
    name := jsToString (jsCoalesce (jGet playlist "name") (Json.str ""))
    description := strOrNull (jGet playlist "description")
    public := boolOrNull (jGet playlist "public")
    collaborative := jsTruthyOpt (jGet playlist "collaborative")
    ownerId := strOrNull ((jGet playlist "owner").bind (fun o => jGet o "id"))
    tracksTotal := jsToNumber (jsCoalesce ((jGet playlist "tracks").bind (fun t => jGet t "total")) (Json.num 0))
    snapshotId := strOrNull (jGet playlist "snapshot_id")
    externalUrl := strOrNull ((jGet playlist "external_urls").bind (fun e => jGet e "spotify")) }

/-- Output of `spotify_list_my_playlists`. -/
structure ListMyPlaylistsOutput where
  total : JsNumber
  limit : JsNumber
  offset : JsNumber
  playlists : List PlaylistItemOutput
deriving DecidableEq, Repr

/-- The response-mapping step of `runSpotifyListMyPlaylists`: items come from
the top-level `payload.items`; `total`/`limit`/`offset` behave as in search. -/
def mapListMyPlaylists (input : SpotifyListMyPlaylistsInput) (payload : Json) :
    ListMyPlaylistsOutput :=
  let items := jsItemsArray (jGet payload "items")
  { total := jsToNumber (jsCoalesce (jGet payload "total") (Json.num items.length))
    limit := jsToNumber (jsCoalesce (jGet payload "limit") (Json.num input.limit))
    offset := jsToNumber (jsCoalesce (jGet payload "offset") (Json.num input.offset))
    playlists := items.map mapPlaylistItem }

/-- Output of `spotify_create_playlist`. -/
structure CreatePlaylistOutput where
  id : String
  name : String
  public : Option Bool
  collaborative : Bool
  description : Option String
  snapshotId : Option String
  externalUrl : Option String
  ownerId : Option String
deriving DecidableEq, Repr

/-- The response-mapping step of `runSpotifyCreatePlaylist`. -/
def mapCreatePlaylist (payload : Json) : CreatePlaylistOutput :=
  { id := jsToString (jsCoalesce (jGet payload "id") (Json.str ""))
    name := jsToString (jsCoalesce (jGet payload "name") (Json.str ""))
    public := boolOrNull (jGet payload "public")
    collaborative := jsTruthyOpt (jGet payload "collaborative")
    description := strOrNull (jGet payload "description")
    snapshotId := strOrNull (jGet payload "snapshot_id")
    externalUrl := strOrNull ((jGet payload "external_urls").bind (fun e => jGet e "spotify"))
    ownerId := strOrNull ((jGet payload "owner").bind (fun o => jGet o "id")) }

/-- The `GET /me` fallthrough of `resolveUserId`: fetch `/me`, throw when
`me?.id` is falsy, else return `String(me.id)`. -/
def resolveUserIdFromMe (runtime : RuntimeConfig) (token : String)
    (net : SpotifyRequest → SpotifyResponse) :
    Except SpotifyError String × List SpotifyRequest :=
  let req := buildRequest runtime.apiBaseUrl token "GET" "/me" none
  match handleResponse (net req) with
  | Except.error e => (Except.error e, [req])
  | Except.ok me =>
    match jGet me "id" with
    | some idVal =>
      if jsTruthy idVal then (Except.ok (jsToString idVal), [req])
      else (Except.error SpotifyError.userResolution, [req])
    | none => (Except.error SpotifyError.userResolution, [req])

/-- `resolveUserId`: a truthy `runtime.defaultUserId` (present and non-empty)
short-circuits; otherwise fall through to `GET /me`. -/
def resolveUserId (runtime : RuntimeConfig) (token : String)
    (net : SpotifyRequest → SpotifyResponse) :
    Except SpotifyError String × List SpotifyRequest :=
  match runtime.defaultUserId with
  | some d => if !d.isEmpty then (Except.ok d, []) else resolveUserIdFromMe runtime token net
  | none => resolveUserIdFromMe runtime token net

/-- `runSpotifyGetMe`. -/
def runSpotifyGetMe (runtime : RuntimeConfig) (env : String → Option String)
    (net : SpotifyRequest → SpotifyResponse) :
    Except SpotifyError GetMeOutput × List SpotifyRequest :=
  match resolveAccessToken runtime env with
  | Except.error e => (Except.error e, [])
  | Except.ok token =>
    let req := buildRequest runtime.apiBaseUrl token "GET" "/me" none
    match handleResponse (net req) with
    | Except.error e => (Except.error e, [req])
    | Except.ok payload => (Except.ok (mapGetMe payload), [req])

/-- `runSpotifySearchTracks`. -/
def runSpotifySearchTracks (input : SpotifySearchTracksInput) (runtime : RuntimeConfig)
    (env : String → Option String) (net : SpotifyRequest → SpotifyResponse) :
    Except SpotifyError SearchTracksOutput × List SpotifyRequest :=
  match resolveAccessToken runtime env with
  | Except.error e => (Except.error e, [])
  | Except.ok token =>
    let req := buildRequest runtime.apiBaseUrl token "GET" ("/search?" ++ searchTracksParams input) none
    match handleResponse (net req) with
    | Except.error e => (Except.error e, [req])
    | Except.ok payload => (Except.ok (mapSearchTracks input payload), [req])

/-- `runSpotifyListMyPlaylists`. -/
def runSpotifyListMyPlaylists (input : SpotifyListMyPlaylistsInput) (runtime : RuntimeConfig)
    (env : String → Option String) (net : SpotifyRequest → SpotifyResponse) :
    Except SpotifyError ListMyPlaylistsOutput × List SpotifyRequest :=
  match resolveAccessToken runtime env with
  | Except.error e => (Except.error e, [])
  | Except.ok token =>
    let req := buildRequest runtime.apiBaseUrl token "GET"
      ("/me/playlists?" ++ listPlaylistsParams input) none
    match handleResponse (net req) with
    | Except.error e => (Except.error e, [req])
    | Except.ok payload => (Except.ok (mapListMyPlaylists input payload), [req])

/-- The `POST` body `{name, description, public, collaborative}` after
`JSON.stringify`, which omits the `description` property when its value is
`undefined`. -/
def createPlaylistBody (input : SpotifyCreatePlaylistInput) : Json :=
  Json.obj
    ([("name", Json.str input.name)]
      ++ (match input.description with
          | some d => [("description", Json.str d)]
          | none => [])
      ++ [("public", Json.bool input.public), ("collaborative", Json.bool input.collaborative)])

/-- `runSpotifyCreatePlaylist`: resolve the credential, take
`input.userId ?? resolveUserId(..)`, then `POST
/users/${encodeURIComponent(userId)}/playlists`. -/
def runSpotifyCreatePlaylist (input : SpotifyCreatePlaylistInput) (runtime : RuntimeConfig)
    (env : String → Option String) (net : SpotifyRequest → SpotifyResponse) :
    Except SpotifyError CreatePlaylistOutput × List SpotifyRequest :=
  match resolveAccessToken runtime env with
  | Except.error e => (Except.error e, [])
  | Except.ok token =>
    let resolved :=
      match input.userId with
      | some u => (Except.ok u, [])
      | none => resolveUserId runtime token net
    match resolved with
    | (Except.error e, trace) => (Except.error e, trace)
    | (Except.ok userId, trace) =>
      let req := buildRequest runtime.apiBaseUrl token "POST"
        ("/users/" ++ encodeURIComponent userId ++ "/playlists") (some (createPlaylistBody input))
      match handleResponse (net req) with
      | Except.error e => (Except.error e, trace ++ [req])
      | Except.ok payload => (Except.ok (mapCreatePlaylist payload), trace ++ [req])

/-- `executeSpotifyGetMe`: parse the config, then run. -/
def executeSpotifyGetMe (_input : Unit) (config : SpotifyToolsConfig)
    (env : String → Option String) (net : SpotifyRequest → SpotifyResponse) :
    Except SpotifyError GetMeOutput × List SpotifyRequest :=
  match parseConfig config with
  | Except.error issue => (Except.error (SpotifyError.validation [issue]), [])
  | Except.ok runtime => runSpotifyGetMe runtime env net

/-- `executeSpotifySearchTracks`. -/
def executeSpotifySearchTracks (input : SpotifySearchTracksInput) (config : SpotifyToolsConfig)
    (env : String → Option String) (net : SpotifyRequest → SpotifyResponse) :
    Except SpotifyError SearchTracksOutput × List SpotifyRequest :=
  match parseConfig config with
  | Except.error issue => (Except.error (SpotifyError.validation [issue]), [])
  | Except.ok runtime => runSpotifySearchTracks input runtime env net

/-- `executeSpotifyListMyPlaylists`. -/
def executeSpotifyListMyPlaylists (input : SpotifyListMyPlaylistsInput)
    (config : SpotifyToolsConfig) (env : String → Option String)
    (net : SpotifyRequest → SpotifyResponse) :
    Except SpotifyError ListMyPlaylistsOutput × List SpotifyRequest :=
  match parseConfig config with
  | Except.error issue => (Except.error (SpotifyError.validation [issue]), [])
  | Except.ok runtime => runSpotifyListMyPlaylists input runtime env net

/-- `executeSpotifyCreatePlaylist`. -/
def executeSpotifyCreatePlaylist (input : SpotifyCreatePlaylistInput)
    (config : SpotifyToolsConfig) (env : String → Option String)
    (net : SpotifyRequest → SpotifyResponse) :
    Except SpotifyError CreatePlaylistOutput × List SpotifyRequest :=
  match parseConfig config with
  | Except.error issue => (Except.error (SpotifyError.validation [issue]), [])
  | Except.ok runtime => runSpotifyCreatePlaylist input runtime env net

/-- The tool-façade pipeline for `spotify_create_playlist`: the agent
framework validates the raw input against `spotifyCreatePlaylistInputSchema`
and calls `execute` only on success (the `McpToolDefinition` /
`tool(..)` contract of `mcp.ts`). -/
def invokeSpotifyCreatePlaylistTool (rawInput : Json) (config : SpotifyToolsConfig)
    (env : String → Option String) (net : SpotifyRequest → SpotifyResponse) :
    Except SpotifyError CreatePlaylistOutput × List SpotifyRequest :=
  match parseCreatePlaylist rawInput with
  | Except.error issues => (Except.error (SpotifyError.validation issues), [])
  | Except.ok input => executeSpotifyCreatePlaylist input config env net

/-- Whether a JSON value is an object — the receivers on which JavaScript
property access, as performed by the mapping code, cannot throw. -/
def isObjJson : Json → Bool
  | Json.obj _ => true
  | _ => false

/-- The raw search response of the spec's reference example. -/
def searchExamplePayload : Json :=
  Json.obj [("tracks", Json.obj [("total", Json.num 1), ("items", Json.arr [Json.obj
    [("id", Json.str "t1"), ("name", Json.str "Song"),
     ("artists", Json.arr [Json.obj [("name", Json.str "Artist")]]),
     ("album", Json.obj [("name", Json.str "Album")]),
     ("duration_ms", Json.num 1000), ("popularity", Json.num 50),
     ("uri", Json.str "spotify:track:t1"),
     ("external_urls", Json.obj [("spotify", Json.str "https://x")])]])])]

/-- A create-playlist input without `userId`. -/
def noUserIdInput : SpotifyCreatePlaylistInput := ⟨none, "My playlist", none, false, false, true⟩

/-- A runtime configuration carrying `defaultUserId = "d1"`. -/
def defaultUserRuntime : RuntimeConfig :=
  ⟨some "T", "SPOTIFY_ACCESS_TOKEN", "https://api.spotify.com/v1", some "d1"⟩

/-- A network in which `GET /me` answers `{id: "u1"}`. -/
def meIsU1Net : SpotifyRequest → SpotifyResponse := fun req =>
  if req.url = "https://api.spotify.com/v1/me" then ⟨200, "", Json.obj [("id", Json.str "u1")]⟩
  else ⟨201, "", Json.obj [("id", Json.str "p1")]⟩

theorem isEmpty_false_of_ne (s : String) (h : s ≠ "") : s.isEmpty = false := by
  rw [← Bool.not_eq_true]
  intro hc
  rw [String.isEmpty_iff] at hc
  exact h hc

/-- C1: create-playlist input validation accepts an input only when its
`confirm` field is literally `true`: for every raw input in which `confirm` is
omitted or equals `false`, `spotifyCreatePlaylistInputSchema` validation fails
and the tool pipeline returns the validation error without executing — no
configuration is consulted, no credential is resolved and no request is
issued (the request trace is empty), whatever the configuration, environment
and network. -/
theorem claim1_confirm_guardrail (j : Json) (config : SpotifyToolsConfig)
    (env : String → Option String) (net : SpotifyRequest → SpotifyResponse)
    (h : jGet j "confirm" = none ∨ jGet j "confirm" = some (Json.bool false)) :
    ∃ issues, parseCreatePlaylist j = Except.error issues ∧
      invokeSpotifyCreatePlaylistTool j config env net =
        (Except.error (SpotifyError.validation issues), []) := by
  have hc : parseLiteralTrue "confirm" (jGet j "confirm") =
      Except.error ⟨["confirm"], "Invalid literal value, expected true"⟩ := by
    rcases h with h | h <;> rw [h] <;> rfl
  have hp : ∀ out, parseCreatePlaylist j ≠ Except.ok out := by
    intro out
    cases j
    case obj fields =>
      rcases h1 : parseOptMinString "userId" 1 (jGet (Json.obj fields) "userId") with i1 | v1 <;>
      rcases h2 : parseBoundedString "name" 1 100 (jGet (Json.obj fields) "name") with i2 | v2 <;>
      rcases h3 : parseOptMaxString "description" 300 (jGet (Json.obj fields) "description") with i3 | v3 <;>
      rcases h4 : parseBoolDefaultFalse "public" (jGet (Json.obj fields) "public") with i4 | v4 <;>
      rcases h5 : parseBoolDefaultFalse "collaborative" (jGet (Json.obj fields) "collaborative") with i5 | v5 <;>
      simp [parseCreatePlaylist, h1, h2, h3, h4, h5, hc]
    all_goals simp [parseCreatePlaylist]
  rcases hres : parseCreatePlaylist j with issues | out
  · exact ⟨issues, rfl, by simp [invokeSpotifyCreatePlaylistTool, hres]⟩
  · exact absurd hres (hp out)

/-- Witness for C1 at the concrete input `{name: "x", confirm: false}` with an
empty configuration. -/
theorem claim1_confirm_guardrail_witness :
    ∃ issues,
      parseCreatePlaylist (Json.obj [("name", Json.str "x"), ("confirm", Json.bool false)]) =
        Except.error issues ∧
      invokeSpotifyCreatePlaylistTool
          (Json.obj [("name", Json.str "x"), ("confirm", Json.bool false)])
          ⟨none, none, none, none⟩ (fun _ => none) (fun _ => ⟨200, "", Json.null⟩) =
        (Except.error (SpotifyError.validation issues), []) :=
  claim1_confirm_guardrail (Json.obj [("name", Json.str "x"), ("confirm", Json.bool false)])
    ⟨none, none, none, none⟩ (fun _ => none) (fun _ => ⟨200, "", Json.null⟩) (Or.inr rfl)

/-- C2 (counterexample): the claim "if an explicit credential is supplied its
trimmed value is returned" fails on a supplied, whitespace-only explicit
credential.  With `accessToken = "   "` (whose trimmed value is `""`) and the
fallback source holding `"B"`, resolution returns `"B"`, not the trimmed
explicit value. -/
theorem claim2_counterexample :
    resolveAccessToken ⟨some "   ", "SPOTIFY_ACCESS_TOKEN", "https://api.spotify.com/v1", none⟩
        (fun k => if k = "SPOTIFY_ACCESS_TOKEN" then some "B" else none) = Except.ok "B" ∧
    jsTrim "   " = "" ∧ ("B" : String) ≠ "" :=
  ⟨rfl, rfl, by decide⟩

/-- C2 (amended): credential resolution precedence as implemented — an
explicit credential wins only when its trimmed value is non-empty; otherwise
the trimmed value of the named fallback source is returned when non-empty;
when neither yields a non-empty string, resolution fails with the
missing-credential error naming the expected fallback source. -/
theorem claim2_credential_precedence (rt : RuntimeConfig) (env : String → Option String) :
    (∀ s, rt.accessToken = some s → jsTrim s ≠ "" →
      resolveAccessToken rt env = Except.ok (jsTrim s)) ∧
    ((rt.accessToken = none ∨ ∃ s, rt.accessToken = some s ∧ jsTrim s = "") →
      ∀ v, env rt.tokenEnvVar = some v → jsTrim v ≠ "" →
        resolveAccessToken rt env = Except.ok (jsTrim v)) ∧
    ((rt.accessToken = none ∨ ∃ s, rt.accessToken = some s ∧ jsTrim s = "") →
      (env rt.tokenEnvVar = none ∨ ∃ v, env rt.tokenEnvVar = some v ∧ jsTrim v = "") →
      resolveAccessToken rt env = Except.error (SpotifyError.missingCredential rt.tokenEnvVar) ∧
      spotifyErrorMessage (SpotifyError.missingCredential rt.tokenEnvVar) =
        "Missing Spotify access token. Pass accessToken in config or set " ++ rt.tokenEnvVar ++ ".") := by
  refine ⟨?_, ?_, ?_⟩
  · intro s hs hne
    simp only [resolveAccessToken, hs, Option.map_some', jsOrString]
    rw [if_neg (by simpa [String.isEmpty_iff] using hne)]
  · intro hmiss v hv hne
    rcases hmiss with hmiss | ⟨s, hs, hse⟩
    · simp only [resolveAccessToken, hmiss, hv, Option.map_none', Option.map_some', jsOrString]
      rw [if_neg (by simpa [String.isEmpty_iff] using hne)]
    · simp only [resolveAccessToken, hs, hse, hv, Option.map_some', jsOrString]
      rw [if_pos (by simp [String.isEmpty_iff, hse]),
        if_neg (by simpa [String.isEmpty_iff] using hne)]
  · intro hmiss hmiss2
    refine ⟨?_, rfl⟩
    rcases hmiss with hmiss | ⟨s, hs, hse⟩ <;> rcases hmiss2 with hmiss2 | ⟨v, hv, hve⟩
    · simp [resolveAccessToken, hmiss, hmiss2, jsOrString]
    · simp [resolveAccessToken, hmiss, hv, hve, jsOrString, String.isEmpty_iff]
    · simp [resolveAccessToken, hs, hse, hmiss2, jsOrString, String.isEmpty_iff]
    · simp [resolveAccessToken, hs, hse, hv, hve, jsOrString, String.isEmpty_iff]

/-- Witness for C2 (amended) on the explicit-credential branch: the supplied
`" A "` resolves to its trimmed value `"A"`. -/
theorem claim2_credential_precedence_witness :
    resolveAccessToken ⟨some " A ", "SPOTIFY_ACCESS_TOKEN", "https://api.spotify.com/v1", none⟩
        (fun _ => some "B") = Except.ok "A" :=
  (claim2_credential_precedence
      ⟨some " A ", "SPOTIFY_ACCESS_TOKEN", "https://api.spotify.com/v1", none⟩
      (fun _ => some "B")).1 " A " rfl (by decide)

/-- C3 (counterexample): with no `userId` in the input but
`defaultUserId = "d1"` in the configuration, and `GET /me` answering
`{id: "u1"}`, the single issued request is the POST to `/users/d1/playlists` —
`/me` is never called and the POST does not target `/users/u1/playlists` as
the claim requires. -/
theorem claim3_counterexample :
    (runSpotifyCreatePlaylist noUserIdInput defaultUserRuntime (fun _ => none) meIsU1Net).2.map
        (fun r => r.url) = ["https://api.spotify.com/v1/users/d1/playlists"] ∧
    ("https://api.spotify.com/v1/users/d1/playlists" : String) ≠
      "https://api.spotify.com/v1/users/u1/playlists" :=
  ⟨rfl, by decide⟩

/-- C3 (amended): the target account id is `userId` when the input supplies
it; otherwise the configured `defaultUserId` when present and non-empty;
otherwise the `id` returned by `GET /me` (converted by `String(..)`), failing
with the user-resolution error when that id is absent or falsy.  The playlist
is created by a POST to `/users/{encodeURIComponent(accountId)}/playlists`
carrying the body `{name, description, public, collaborative}`
(`createPlaylistBody`), and the request trace is exactly the `/me` call (when
made) followed by that POST. -/
theorem claim3_account_resolution (input : SpotifyCreatePlaylistInput) (rt : RuntimeConfig)
    (env : String → Option String) (net : SpotifyRequest → SpotifyResponse)
    (token : String) (htok : resolveAccessToken rt env = Except.ok token) :
    (∀ u, input.userId = some u →
      (runSpotifyCreatePlaylist input rt env net).2 =
        [buildRequest rt.apiBaseUrl token "POST"
          ("/users/" ++ encodeURIComponent u ++ "/playlists") (some (createPlaylistBody input))]) ∧
    (∀ d, input.userId = none → rt.defaultUserId = some d → d ≠ "" →
      (runSpotifyCreatePlaylist input rt env net).2 =
        [buildRequest rt.apiBaseUrl token "POST"
          ("/users/" ++ encodeURIComponent d ++ "/playlists") (some (createPlaylistBody input))]) ∧
    (input.userId = none → (rt.defaultUserId = none ∨ rt.defaultUserId = some "") →
      (200 ≤ (net (buildRequest rt.apiBaseUrl token "GET" "/me" none)).status ∧
        (net (buildRequest rt.apiBaseUrl token "GET" "/me" none)).status < 300) →
      (∀ idJson,
        jGet (net (buildRequest rt.apiBaseUrl token "GET" "/me" none)).json "id" = some idJson →
        jsTruthy idJson = true →
        (runSpotifyCreatePlaylist input rt env net).2 =
          [buildRequest rt.apiBaseUrl token "GET" "/me" none,
           buildRequest rt.apiBaseUrl token "POST"
             ("/users/" ++ encodeURIComponent (jsToString idJson) ++ "/playlists")
             (some (createPlaylistBody input))]) ∧
      (jsTruthyOpt (jGet (net (buildRequest rt.apiBaseUrl token "GET" "/me" none)).json "id") = false →
        runSpotifyCreatePlaylist input rt env net =
          (Except.error SpotifyError.userResolution,
           [buildRequest rt.apiBaseUrl token "GET" "/me" none]))) := by
  refine ⟨?_, ?_, ?_⟩
  · intro u hu
    simp only [runSpotifyCreatePlaylist, htok, hu]
    rcases hres : handleResponse (net (buildRequest rt.apiBaseUrl token "POST"
        ("/users/" ++ encodeURIComponent u ++ "/playlists")
        (some (createPlaylistBody input)))) with e | payload <;>
      simp [hres]
  · intro d hu hd hdne
    simp only [runSpotifyCreatePlaylist, htok, hu, resolveUserId, hd]
    rw [if_pos (by simp [isEmpty_false_of_ne d hdne])]
    rcases hres : handleResponse (net (buildRequest rt.apiBaseUrl token "POST"
        ("/users/" ++ encodeURIComponent d ++ "/playlists")
        (some (createPlaylistBody input)))) with e | payload <;>
      simp [hres]
  · intro hu hdef hstatus
    have hok : handleResponse (net (buildRequest rt.apiBaseUrl token "GET" "/me" none)) =
        Except.ok (net (buildRequest rt.apiBaseUrl token "GET" "/me" none)).json := by
      simp [handleResponse, hstatus]
    constructor
    · intro idJson hid htruthy
      have hfromme : resolveUserIdFromMe rt token net =
          (Except.ok (jsToString idJson), [buildRequest rt.apiBaseUrl token "GET" "/me" none]) := by
        simp only [resolveUserIdFromMe, hok, hid, htruthy, if_true]
      have hresolve : resolveUserId rt token net =
          (Except.ok (jsToString idJson), [buildRequest rt.apiBaseUrl token "GET" "/me" none]) := by
        rcases hdef with hdef | hdef <;>
          simp [resolveUserId, hdef, hfromme, String.isEmpty_iff]
      simp only [runSpotifyCreatePlaylist, htok, hu, hresolve]
      rcases hres : handleResponse (net (buildRequest rt.apiBaseUrl token "POST"
          ("/users/" ++ encodeURIComponent (jsToString idJson) ++ "/playlists")
          (some (createPlaylistBody input)))) with e | payload <;>
        simp [hres]
    · intro hfalsy
      have hfromme : resolveUserIdFromMe rt token net =
          (Except.error SpotifyError.userResolution,
           [buildRequest rt.apiBaseUrl token "GET" "/me" none]) := by
        rcases hid : jGet (net (buildRequest rt.apiBaseUrl token "GET" "/me" none)).json "id"
          with _ | idJson
        · simp [resolveUserIdFromMe, hok, hid]
        · have hfj : jsTruthy idJson = false := by simpa [jsTruthyOpt, hid] using hfalsy
          simp [resolveUserIdFromMe, hok, hid, hfj]
      have hresolve : resolveUserId rt token net =
          (Except.error SpotifyError.userResolution,
           [buildRequest rt.apiBaseUrl token "GET" "/me" none]) := by
        rcases hdef with hdef | hdef <;>
          simp [resolveUserId, hdef, hfromme, String.isEmpty_iff]
      simp [runSpotifyCreatePlaylist, htok, hu, hresolve]

/-- Witness for C3 (amended) on the explicit-`userId` branch: the single
request is the POST to `/users/alice/playlists`. -/
theorem claim3_account_resolution_witness :
    (runSpotifyCreatePlaylist ⟨some "alice", "n", none, false, false, true⟩
        ⟨some "T", "E", "https://api.spotify.com/v1", none⟩ (fun _ => none)
        (fun _ => ⟨201, "", Json.obj []⟩)).2 =
      [buildRequest "https://api.spotify.com/v1" "T" "POST"
        ("/users/" ++ encodeURIComponent "alice" ++ "/playlists")
        (some (createPlaylistBody ⟨some "alice", "n", none, false, false, true⟩))] :=
  (claim3_account_resolution ⟨some "alice", "n", none, false, false, true⟩
      ⟨some "T", "E", "https://api.spotify.com/v1", none⟩ (fun _ => none)
      (fun _ => ⟨201, "", Json.obj []⟩) "T" rfl).1 "alice" rfl

/-- C4: create-playlist validation rejects every raw input whose `public` and
`collaborative` fields are both the boolean `true` — no such input parses
successfully, whatever the other fields — and when all other fields are valid
(shown for an in-range `name` plus `confirm: true`) the validation error is
attached to the `collaborative` field with the source's message. -/
theorem claim4_public_collaborative_reject :
    (∀ j out, jGet j "public" = some (Json.bool true) →
      jGet j "collaborative" = some (Json.bool true) →
      parseCreatePlaylist j ≠ Except.ok out) ∧
    (∀ n : String, 1 ≤ n.length → n.length ≤ 100 →
      parseCreatePlaylist (Json.obj [("name", Json.str n), ("public", Json.bool true),
        ("collaborative", Json.bool true), ("confirm", Json.bool true)]) =
        Except.error [⟨["collaborative"], "Spotify collaborative playlists must be non-public."⟩]) := by
  constructor
  · intro j out hp hcl
    cases j
    case obj fields =>
      have h4 : parseBoolDefaultFalse "public" (jGet (Json.obj fields) "public") =
          Except.ok true := by
        rw [hp]; rfl
      have h5 : parseBoolDefaultFalse "collaborative" (jGet (Json.obj fields) "collaborative") =
          Except.ok true := by
        rw [hcl]; rfl
      rcases h1 : parseOptMinString "userId" 1 (jGet (Json.obj fields) "userId") with i1 | v1 <;>
      rcases h2 : parseBoundedString "name" 1 100 (jGet (Json.obj fields) "name") with i2 | v2 <;>
      rcases h3 : parseOptMaxString "description" 300 (jGet (Json.obj fields) "description") with i3 | v3 <;>
      rcases h6 : parseLiteralTrue "confirm" (jGet (Json.obj fields) "confirm") with i6 | v6 <;>
      simp [parseCreatePlaylist, h1, h2, h3, h4, h5, h6]
    all_goals simp [jGet] at hp
  · intro n hmin hmax
    simp [parseCreatePlaylist, jGet, lookupField, parseOptMinString, parseBoundedString,
      parseOptMaxString, parseBoolDefaultFalse, parseLiteralTrue, hmin, hmax]

/-- Witness for C4 at `{name: "x", public: true, collaborative: true,
confirm: true}`. -/
theorem claim4_public_collaborative_reject_witness :
    parseCreatePlaylist (Json.obj [("name", Json.str "x"), ("public", Json.bool true),
        ("collaborative", Json.bool true), ("confirm", Json.bool true)]) =
      Except.error [⟨["collaborative"], "Spotify collaborative playlists must be non-public."⟩] :=
  claim4_public_collaborative_reject.2 "x" (by decide) (by decide)

/-- C5 (counterexample): "missing numeric fields map to 0" fails for the
paging fields.  For the search mapping at request limit 10 and offset 5 with
an empty-object response (so the response's `limit` and `offset` numeric
fields are missing), the output's limit is 10 and offset is 5, not 0. -/
theorem claim5_counterexample :
    mapSearchTracks ⟨"q", 10, 5, none⟩ (Json.obj []) =
      ⟨JsNumber.int 0, JsNumber.int 10, JsNumber.int 5, []⟩ ∧
    JsNumber.int 10 ≠ JsNumber.int 0 ∧ JsNumber.int 5 ≠ JsNumber.int 0 :=
  ⟨rfl, by decide, by decide⟩

/-- C5 (amended): the defensive defaults as implemented, per operation, for
object responses with the relevant fields absent — string ids default to the
empty string, nullable string fields to null, list fields to the empty
sequence, and numeric fields to 0, except that a missing `total` defaults to
the number of returned items and missing `limit`/`offset` default to the
request's values; a missing `public` flag defaults to `false` (it is null only
when the response carries an explicit null) and `collaborative` to `false`. -/
theorem claim5_defensive_defaults :
    (∀ p, isObjJson p = true → jGet p "id" = none → jGet p "display_name" = none →
      jGet p "email" = none → jGet p "country" = none → jGet p "product" = none →
      jGet p "followers" = none → jGet p "uri" = none →
      mapGetMe p = ⟨"", none, none, none, none, JsNumber.int 0, none⟩) ∧
    (∀ si p, isObjJson p = true → jGet p "tracks" = none →
      mapSearchTracks si p = ⟨JsNumber.int 0, JsNumber.int si.limit, JsNumber.int si.offset, []⟩) ∧
    (∀ t, isObjJson t = true → jGet t "id" = none → jGet t "name" = none →
      jGet t "artists" = none → jGet t "album" = none → jGet t "duration_ms" = none →
      jGet t "popularity" = none → jGet t "uri" = none → jGet t "external_urls" = none →
      mapTrack t = ⟨"", "", [], none, JsNumber.int 0, JsNumber.int 0, "", none⟩) ∧
    (∀ li p, isObjJson p = true → jGet p "items" = none → jGet p "total" = none →
      jGet p "limit" = none → jGet p "offset" = none →
      mapListMyPlaylists li p =
        ⟨JsNumber.int 0, JsNumber.int li.limit, JsNumber.int li.offset, []⟩) ∧
    (∀ pl, isObjJson pl = true → jGet pl "id" = none → jGet pl "name" = none →
      jGet pl "description" = none → jGet pl "public" = none → jGet pl "collaborative" = none →
      jGet pl "owner" = none → jGet pl "tracks" = none → jGet pl "snapshot_id" = none →
      jGet pl "external_urls" = none →
      mapPlaylistItem pl = ⟨"", "", none, some false, false, none, JsNumber.int 0, none, none⟩) ∧
    (∀ p, isObjJson p = true → jGet p "id" = none → jGet p "name" = none →
      jGet p "public" = none → jGet p "collaborative" = none → jGet p "description" = none →
      jGet p "snapshot_id" = none → jGet p "external_urls" = none → jGet p "owner" = none →
      mapCreatePlaylist p = ⟨"", "", some false, false, none, none, none, none⟩) := by
  refine ⟨?_, ?_, ?_, ?_, ?_, ?_⟩
  · intro p _ h1 h2 h3 h4 h5 h6 h7
    simp [mapGetMe, h1, h2, h3, h4, h5, h6, h7, jsCoalesce, strOrNull, jsToString, jsToNumber]
  · intro si p _ h1
    simp [mapSearchTracks, h1, jsCoalesce, jsToNumber, jsItemsArray]
  · intro t _ h1 h2 h3 h4 h5 h6 h7 h8
    simp [mapTrack, h1, h2, h3, h4, h5, h6, h7, h8, jsCoalesce, strOrNull, jsToString,
      jsToNumber, mapArtists]
  · intro li p _ h1 h2 h3 h4
    simp [mapListMyPlaylists, h1, h2, h3, h4, jsCoalesce, jsToNumber, jsItemsArray]
  · intro pl _ h1 h2 h3 h4 h5 h6 h7 h8 h9
    simp [mapPlaylistItem, h1, h2, h3, h4, h5, h6, h7, h8, h9, jsCoalesce, strOrNull,
      jsToString, jsToNumber, boolOrNull, jsTruthyOpt]
  · intro p _ h1 h2 h3 h4 h5 h6 h7 h8
    simp [mapCreatePlaylist, h1, h2, h3, h4, h5, h6, h7, h8, jsCoalesce, strOrNull,
      jsToString, jsToNumber, boolOrNull, jsTruthyOpt]

/-- Witness for C5 (amended) on the search conjunct at request limit 7 and
offset 3 with the empty-object response. -/
theorem claim5_defensive_defaults_witness :
    mapSearchTracks ⟨"q", 7, 3, none⟩ (Json.obj []) =
      ⟨JsNumber.int 0, JsNumber.int 7, JsNumber.int 3, []⟩ :=
  claim5_defensive_defaults.2.1 ⟨"q", 7, 3, none⟩ (Json.obj []) rfl rfl

/-- C6: for every valid input (limit in [1, 50], offset ≥ 0), when the remote
response (an object) omits its own limit/offset fields, the search output's
`limit` and `offset` equal the request's limit and offset, and likewise for
list-my-playlists. -/
theorem claim6_limit_offset_echo (si : SpotifySearchTracksInput)
    (li : SpotifyListMyPlaylistsInput) (p q : Json)
    (_hsl : 1 ≤ si.limit) (_hsu : si.limit ≤ 50) (_hso : 0 ≤ si.offset)
    (_hll : 1 ≤ li.limit) (_hlu : li.limit ≤ 50) (_hlo : 0 ≤ li.offset)
    (_hpobj : isObjJson p = true) (_hqobj : isObjJson q = true)
    (hpl : (jGet p "tracks").bind (fun t => jGet t "limit") = none)
    (hpo : (jGet p "tracks").bind (fun t => jGet t "offset") = none)
    (hql : jGet q "limit" = none) (hqo : jGet q "offset" = none) :
    (mapSearchTracks si p).limit = JsNumber.int si.limit ∧
    (mapSearchTracks si p).offset = JsNumber.int si.offset ∧
    (mapListMyPlaylists li q).limit = JsNumber.int li.limit ∧
    (mapListMyPlaylists li q).offset = JsNumber.int li.offset := by
  refine ⟨?_, ?_, ?_, ?_⟩ <;>
    simp [mapSearchTracks, mapListMyPlaylists, hpl, hpo, hql, hqo, jsCoalesce, jsToNumber]

/-- Witness for C6 at limit 10 / offset 5 (search) and limit 20 / offset 0
(list), with empty-object responses. -/
theorem claim6_limit_offset_echo_witness :
    (mapSearchTracks ⟨"q", 10, 5, none⟩ (Json.obj [])).limit = JsNumber.int 10 ∧
    (mapSearchTracks ⟨"q", 10, 5, none⟩ (Json.obj [])).offset = JsNumber.int 5 ∧
    (mapListMyPlaylists ⟨20, 0⟩ (Json.obj [])).limit = JsNumber.int 20 ∧
    (mapListMyPlaylists ⟨20, 0⟩ (Json.obj [])).offset = JsNumber.int 0 :=
  claim6_limit_offset_echo ⟨"q", 10, 5, none⟩ ⟨20, 0⟩ (Json.obj []) (Json.obj [])
    (by decide) (by decide) (by decide) (by decide) (by decide) (by decide)
    rfl rfl rfl rfl rfl rfl

/-- C7: the search-tracks response mapping matches the spec's reference
example — the concrete raw response maps, for every request limit and offset,
to exactly the stated output; artist entries whose `name` is missing or null
contribute nothing to the artists list; and a `tracks.items` that is not an
array yields an empty tracks list. -/
theorem claim7_search_mapping :
    (∀ query limit offset,
      mapSearchTracks ⟨query, limit, offset, none⟩ searchExamplePayload =
        ⟨JsNumber.int 1, JsNumber.int limit, JsNumber.int offset,
          [⟨"t1", "Song", ["Artist"], some "Album", JsNumber.int 1000, JsNumber.int 50,
            "spotify:track:t1", some "https://x"⟩]⟩) ∧
    (∀ a rest, (jGet a "name" = none ∨ jGet a "name" = some Json.null) →
      mapArtists (some (Json.arr (a :: rest))) = mapArtists (some (Json.arr rest))) ∧
    (∀ input payload,
      (∀ xs, (jGet payload "tracks").bind (fun t => jGet t "items") ≠ some (Json.arr xs)) →
      (mapSearchTracks input payload).tracks = []) := by
  refine ⟨?_, ?_, ?_⟩
  · intro query limit offset
    rfl
  · intro a rest h
    rcases h with h | h <;> simp [mapArtists, mapArtistName, h, jsTruthy, List.filterMap_cons]
  · intro input payload h
    rcases hv : (jGet payload "tracks").bind (fun t => jGet t "items") with _ | v
    · simp [mapSearchTracks, hv, jsItemsArray]
    · cases v
      case arr xs => exact absurd hv (h xs)
      all_goals simp [mapSearchTracks, hv, jsItemsArray]

/-- Witness for C7 on the artist-filter conjunct: an artist entry without a
`name` field contributes nothing. -/
theorem claim7_search_mapping_witness :
    jGet (Json.obj []) "name" = none ∧
    mapArtists (some (Json.arr [Json.obj []])) = mapArtists (some (Json.arr [])) :=
  ⟨rfl, claim7_search_mapping.2.1 (Json.obj []) [] (Or.inl rfl)⟩

/-- C8: the request executor succeeds exactly on 2xx responses, returning the
parsed JSON body; on every non-2xx response it fails with an error carrying
the HTTP status and the response body text truncated to 400 characters; every
built request targets the concatenation `apiBaseUrl ++ path`, carries the
`authorization: Bearer <credential>` and `accept: application/json` headers,
and carries the JSON content-type header exactly when a body is present. -/
theorem claim8_request_executor (r : SpotifyResponse)
    (apiBaseUrl token method path : String) (body : Option Json) :
    (200 ≤ r.status ∧ r.status < 300 → handleResponse r = Except.ok r.json) ∧
    (¬(200 ≤ r.status ∧ r.status < 300) →
      handleResponse r = Except.error (SpotifyError.remoteApi r.status (jsSlice r.text 400))) ∧
    (buildRequest apiBaseUrl token method path body).url = apiBaseUrl ++ path ∧
    ("authorization", "Bearer " ++ token) ∈ (buildRequest apiBaseUrl token method path body).headers ∧
    ("accept", "application/json") ∈ (buildRequest apiBaseUrl token method path body).headers ∧
    ((("content-type", "application/json") ∈
        (buildRequest apiBaseUrl token method path body).headers) ↔ body ≠ none) ∧
    (buildRequest apiBaseUrl token method path body).body = body := by
  refine ⟨?_, ?_, rfl, ?_, ?_, ?_, rfl⟩
  · intro h; simp [handleResponse, h]
  · intro h; simp [handleResponse, h]
  · simp [buildRequest]
  · simp [buildRequest]
  · cases body <;> simp [buildRequest]

/-- Witness for C8 on the non-2xx conjunct at status 404 with body `"boom"`. -/
theorem claim8_request_executor_witness :
    handleResponse ⟨404, "boom", Json.null⟩ =
      Except.error (SpotifyError.remoteApi 404 "boom") :=
  (claim8_request_executor ⟨404, "boom", Json.null⟩ "b" "t" "GET" "/p" none).2.1 (by decide)

/-- C9: for every configuration whose `apiBaseUrl` is present but not a
well-formed URL, all four execute functions fail with the configuration
validation error and an empty request trace, with a result independent of the
environment and the network (so before any credential resolution or network
activity); `"not-a-url"` is such a value; and when `apiBaseUrl` and the token
source name are omitted they default to `"https://api.spotify.com/v1"` and
`"SPOTIFY_ACCESS_TOKEN"`. -/
theorem claim9_config_validation (env : String → Option String)
    (net : SpotifyRequest → SpotifyResponse) (inp₂ : SpotifySearchTracksInput)
    (inp₃ : SpotifyListMyPlaylistsInput) (inp₄ : SpotifyCreatePlaylistInput) :
    (∀ config s, config.apiBaseUrl = some s → isWellFormedUrl s = false →
      executeSpotifyGetMe () config env net =
        (Except.error (SpotifyError.validation [⟨["apiBaseUrl"], "Invalid url"⟩]), []) ∧
      executeSpotifySearchTracks inp₂ config env net =
        (Except.error (SpotifyError.validation [⟨["apiBaseUrl"], "Invalid url"⟩]), []) ∧
      executeSpotifyListMyPlaylists inp₃ config env net =
        (Except.error (SpotifyError.validation [⟨["apiBaseUrl"], "Invalid url"⟩]), []) ∧
      executeSpotifyCreatePlaylist inp₄ config env net =
        (Except.error (SpotifyError.validation [⟨["apiBaseUrl"], "Invalid url"⟩]), [])) ∧
    isWellFormedUrl "not-a-url" = false ∧
    (∀ config, config.apiBaseUrl = none → config.tokenEnvVar = none →
      parseConfig config =
        Except.ok ⟨config.accessToken, "SPOTIFY_ACCESS_TOKEN", "https://api.spotify.com/v1",
          config.defaultUserId⟩) := by
  refine ⟨?_, by decide, ?_⟩
  · intro config s hurl hbad
    refine ⟨?_, ?_, ?_, ?_⟩ <;>
      simp [executeSpotifyGetMe, executeSpotifySearchTracks, executeSpotifyListMyPlaylists,
        executeSpotifyCreatePlaylist, parseConfig, hurl, hbad]
  · intro config h1 h2
    simp [parseConfig, h1, h2]
    decide

/-- Witness for C9: the get-me execute fails on `apiBaseUrl = "not-a-url"`
with the configuration validation error and no requests. -/
theorem claim9_config_validation_witness :
    executeSpotifyGetMe () ⟨none, none, some "not-a-url", none⟩ (fun _ => none)
        (fun _ => ⟨200, "", Json.null⟩) =
      (Except.error (SpotifyError.validation [⟨["apiBaseUrl"], "Invalid url"⟩]), []) :=
  ((claim9_config_validation (fun _ => none) (fun _ => ⟨200, "", Json.null⟩)
      ⟨"q", 10, 0, none⟩ ⟨20, 0⟩ ⟨none, "n", none, false, false, true⟩).1
    ⟨none, none, some "not-a-url", none⟩ "not-a-url" rfl (by decide)).1

/-- C10 (implicit): an explicit credential that is empty or whitespace-only
after trimming is treated as absent — resolution falls through to the named
environment fallback source and returns its trimmed value when non-empty, and
fails with the missing-credential error exactly when that fallback is also
absent, or empty or whitespace-only after trimming. -/
theorem claim10_whitespace_token_fallthrough (rt : RuntimeConfig)
    (env : String → Option String) (s : String)
    (hs : rt.accessToken = some s) (hse : jsTrim s = "") :
    (∀ v, env rt.tokenEnvVar = some v → jsTrim v ≠ "" →
      resolveAccessToken rt env = Except.ok (jsTrim v)) ∧
    (env rt.tokenEnvVar = none →
      resolveAccessToken rt env = Except.error (SpotifyError.missingCredential rt.tokenEnvVar)) ∧
    (∀ v, env rt.tokenEnvVar = some v → jsTrim v = "" →
      resolveAccessToken rt env = Except.error (SpotifyError.missingCredential rt.tokenEnvVar)) := by
  refine ⟨?_, ?_, ?_⟩
  · intro v hv hne
    simp only [resolveAccessToken, hs, hse, hv, Option.map_some', jsOrString]
    rw [if_pos (by simp [String.isEmpty_iff, hse]),
      if_neg (by simpa [String.isEmpty_iff] using hne)]
  · intro hnone
    simp [resolveAccessToken, hs, hse, hnone, jsOrString, String.isEmpty_iff]
  · intro v hv hve
    simp [resolveAccessToken, hs, hse, hv, hve, jsOrString, String.isEmpty_iff]

/-- Witness for C10: whitespace explicit credential `"  "` falls through to
the fallback value `" B "`, which resolves to its trimmed value `"B"`. -/
theorem claim10_whitespace_token_fallthrough_witness :
    resolveAccessToken ⟨some "  ", "SPOTIFY_ACCESS_TOKEN", "https://api.spotify.com/v1", none⟩
        (fun _ => some " B ") = Except.ok "B" :=
  (claim10_whitespace_token_fallthrough
      ⟨some "  ", "SPOTIFY_ACCESS_TOKEN", "https://api.spotify.com/v1", none⟩
      (fun _ => some " B ") "  " rfl rfl).1 " B " rfl (by decide)
